import Mathlib

/-!
Verification of the position/portfolio risk-analysis engine of the
`bbposexp` repository (src/analyzer.py, src/ai_analysis.py).

Numeric fields are modelled with rationals (ℚ): the Python code performs
plain arithmetic and threshold comparisons, which ℚ captures exactly.
Raw API records are modelled as structures of `Option` fields: `none`
stands for an absent dictionary key, mirroring Python's `dict.get`.
-/

namespace BBPos

/-- Raw position record as delivered to analyze_position: each field may be
absent. Bybit delivers numbers as strings; here a value is its parsed
rational. -/
structure RawPosition where
  symbol : Option String := none
  side : Option String := none
  size : Option ℚ := none
  avgPrice : Option ℚ := none
  markPrice : Option ℚ := none
  liqPrice : Option ℚ := none
  leverage : Option ℚ := none
  unrealisedPnl : Option ℚ := none
  deriving Repr, DecidableEq

/-- Normalized per-position analysis record returned by analyze_position. -/
structure PositionAnalysis where
  symbol : String
  side : String
  size : ℚ
  entry_price : ℚ
  mark_price : ℚ
  liq_price : ℚ
  leverage : ℚ
  unrealized_pnl : ℚ
  exposure_usdt : ℚ
  liquidation_distance_pct : ℚ
  pnl_status : String
  leverage_risk : String
  cluster : String
  deriving Repr, DecidableEq

/-- Symbol categorization mappings (module-level table SYMBOL_CLUSTERS of
analyzer.py, in its insertion order). -/
def SYMBOL_CLUSTERS : List (String × List String) :=
  [ ("BTC", ["BTC"]),
    ("ETH", ["ETH"]),
    ("L2", ["ARB", "OP", "MATIC", "AVAX", "STRK", "METIS", "IMX", "MANTA"]),
    ("MEME", ["DOGE", "SHIB", "PEPE", "WIF", "BONK", "FLOKI", "BRETT"]),
    ("AI", ["AGIX", "FET", "RNDR", "GRT", "OCEAN", "NMR", "TAO"]) ]

/-- Does `needle` start `hay`? (character-list matcher used to model
Python's substring operator `in`). -/
def matchHere : List Char → List Char → Bool
  | [], _ => true
  | _ :: _, [] => false
  | c :: cs, d :: ds => c == d && matchHere cs ds

/-- Does `needle` occur as a contiguous substring of `hay`?  Models
Python's `needle in hay` on strings. -/
def containsSub (hay needle : List Char) : Bool :=
  match hay with
  | [] => needle.isEmpty
  | _ :: rest => matchHere needle hay || containsSub rest needle

/-- Uppercase a string character by character, modelling `str.upper`. -/
def strUpper (s : String) : List Char := s.toList.map Char.toUpper

/-- Uppercased string, modelling `str.upper` as a String. -/
def upperStr (s : String) : String := String.mk (strUpper s)

/-- Lowercased string, modelling `str.lower`. -/
def lowerStr (s : String) : String := String.mk (s.toList.map Char.toLower)

/-- Inner loop of categorize_symbol: scan the cluster table in order and
return the first cluster one of whose keywords occurs in the upper-cased
symbol. -/
def categorizeScan : List (String × List String) → List Char → String
  | [], _ => "OTHER"
  | (cluster, keywords) :: rest, su =>
      if keywords.any (fun kw => containsSub su kw.toList) then cluster
      else categorizeScan rest su

/-- categorize_symbol of analyzer.py: cluster a trading symbol by
substring match against SYMBOL_CLUSTERS, first match wins, default
OTHER. -/
def categorize_symbol (symbol : String) : String :=
  categorizeScan SYMBOL_CLUSTERS (strUpper symbol)

/-- calculate_leverage_risk of analyzer.py. -/
def calculate_leverage_risk (leverage : ℚ) : String :=
  if leverage < 5 then "safe"
  else if leverage ≤ 10 then "medium"
  else "high"

/-- analyze_position of analyzer.py.  `liqPrice` goes through Python's
truthiness test (`... if position.get('liqPrice') else 0`): an absent key
gives 0, and a present numeric value is falsy exactly when it is 0, so the
net effect on parsed numbers is `getD 0`. -/
def analyze_position (position : RawPosition) : PositionAnalysis :=
  let symbol := position.symbol.getD ""
  let side := lowerStr (position.side.getD "")
  let size := position.size.getD 0
  let entry_price := position.avgPrice.getD 0
  let mark_price := position.markPrice.getD 0
  let liq_price := position.liqPrice.getD 0
  let leverage := position.leverage.getD 1
  let unrealized_pnl := position.unrealisedPnl.getD 0
  let exposure_usdt := |size * mark_price|
  let liquidation_distance_pct :=
    if liq_price > 0 ∧ mark_price > 0 then
      |mark_price - liq_price| / mark_price * 100
    else (100 : ℚ)
  let pnl_status := if unrealized_pnl > 0 then "profit" else "loss"
  let leverage_risk := calculate_leverage_risk leverage
  let cluster := categorize_symbol symbol
  { symbol := symbol
    side := side
    size := size
    entry_price := entry_price
    mark_price := mark_price
    liq_price := liq_price
    leverage := leverage
    unrealized_pnl := unrealized_pnl
    exposure_usdt := exposure_usdt
    liquidation_distance_pct := liquidation_distance_pct
    pnl_status := pnl_status
    leverage_risk := leverage_risk
    cluster := cluster }

/-- Raw order record (each field may be absent). -/
structure RawOrder where
  symbol : Option String := none
  side : Option String := none
  orderType : Option String := none
  price : Option ℚ := none
  qty : Option ℚ := none
  orderId : Option String := none
  deriving Repr, DecidableEq

/-- Normalized order record produced by analyze_orders. -/
structure OrderAnalysis where
  symbol : String
  side : String
  type : String
  price : ℚ
  qty : ℚ
  order_id : String
  deriving Repr, DecidableEq

/-- analyze_orders of analyzer.py. -/
def analyze_orders (orders : List RawOrder) : List OrderAnalysis :=
  orders.map fun order =>
    { symbol := order.symbol.getD ""
      side := lowerStr (order.side.getD "")
      type := lowerStr (order.orderType.getD "")
      price := order.price.getD 0
      qty := order.qty.getD 0
      order_id := order.orderId.getD "" }

/-- The `portfolio` sub-record of analyze_portfolio's result.  `clusters`
is an insertion-ordered association list, mirroring a Python dict. -/
structure Portfolio where
  total_long_exposure : ℚ
  total_short_exposure : ℚ
  net_exposure : ℚ
  bias : String
  clusters : List (String × ℚ)
  total_positions : ℕ
  total_orders : ℕ
  total_unrealized_pnl : ℚ
  deriving Repr, DecidableEq

/-- The `risks` sub-record of analyze_portfolio's result. -/
structure Risks where
  highest_risk_position : Option PositionAnalysis
  high_leverage_count : ℕ
  close_liquidation_count : ℕ
  total_risk_score : ℚ
  deriving Repr, DecidableEq

/-- Full result record of analyze_portfolio. -/
structure PortfolioAnalysis where
  portfolio : Portfolio
  positions : List PositionAnalysis
  orders : List OrderAnalysis
  risks : Risks
  deriving Repr, DecidableEq

/-- Insert-or-add into an insertion-ordered association list: models
`d[k] = d.get(k, 0) + v` on a Python dict. -/
def addToCluster (m : List (String × ℚ)) (k : String) (v : ℚ) :
    List (String × ℚ) :=
  match m with
  | [] => [(k, v)]
  | (k', v') :: rest =>
      if k' == k then (k', v' + v) :: rest
      else (k', v') :: addToCluster rest k v

/-- Sum of long-side exposures (`sum(... if pos['side'] == 'buy')`). -/
def totalLongExposure (positions : List PositionAnalysis) : ℚ :=
  ((positions.filter fun pos => pos.side == "buy").map
    fun pos => pos.exposure_usdt).sum

/-- Sum of short-side exposures (`sum(... if pos['side'] == 'sell')`). -/
def totalShortExposure (positions : List PositionAnalysis) : ℚ :=
  ((positions.filter fun pos => pos.side == "sell").map
    fun pos => pos.exposure_usdt).sum

/-- Risk score computed inside analyze_portfolio's highest-risk scan:
inverse of the liquidation distance times the leverage. -/
def riskScore (pos : PositionAnalysis) : ℚ :=
  100 / pos.liquidation_distance_pct * pos.leverage

/-- One step of the highest-risk scan of analyze_portfolio: a position
with positive liquidation distance whose score strictly exceeds the best
score so far replaces the best-so-far pair. -/
def riskStep (acc : Option PositionAnalysis × ℚ) (pos : PositionAnalysis) :
    Option PositionAnalysis × ℚ :=
  if pos.liquidation_distance_pct > 0 then
    if riskScore pos > acc.2 then (some pos, riskScore pos) else acc
  else acc

/-- The highest-risk scan of analyze_portfolio, starting from
(`highest_risk_position = None`, `highest_risk_score = 0`). -/
def riskScan (positions : List PositionAnalysis) :
    Option PositionAnalysis × ℚ :=
  positions.foldl riskStep (none, 0)

/-- analyze_portfolio of analyzer.py (with the `orders=None` default
already resolved to the empty list). -/
def analyze_portfolio (positions : List PositionAnalysis)
    (orders : List OrderAnalysis) : PortfolioAnalysis :=
  if positions.isEmpty ∧ orders.isEmpty then
    { portfolio :=
        { total_long_exposure := 0
          total_short_exposure := 0
          net_exposure := 0
          bias := "neutral"
          clusters := []
          total_positions := 0
          total_orders := 0
          total_unrealized_pnl := 0 }
      positions := []
      orders := []
      risks :=
        { highest_risk_position := none
          high_leverage_count := 0
          close_liquidation_count := 0
          total_risk_score := 0 } }
  else
    let total_long_exposure := totalLongExposure positions
    let total_short_exposure := totalShortExposure positions
    let net_exposure := total_long_exposure - total_short_exposure
    let total_exposure := total_long_exposure + total_short_exposure
    let bias :=
      if total_exposure > 0 then
        let long_pct := total_long_exposure / total_exposure
        if long_pct > (6 : ℚ) / 10 then "long"
        else if long_pct < (4 : ℚ) / 10 then "short"
        else "neutral"
      else "neutral"
    let cluster_exposure := positions.foldl
      (fun m pos => addToCluster m pos.cluster pos.exposure_usdt) []
    let cluster_distribution :=
      if total_exposure > 0 then
        cluster_exposure.map fun kv => (kv.1, kv.2 / total_exposure * 100)
      else []
    let total_unrealized_pnl := (positions.map
      fun pos => pos.unrealized_pnl).sum
    let high_leverage_positions := positions.filter
      fun pos => pos.leverage_risk == "high"
    let close_liquidation_positions := positions.filter
      fun pos => pos.liquidation_distance_pct < 10
    let scan := riskScan positions
    { portfolio :=
        { total_long_exposure := total_long_exposure
          total_short_exposure := total_short_exposure
          net_exposure := net_exposure
          bias := bias
          clusters := cluster_distribution
          total_positions := positions.length
          total_orders := orders.length
          total_unrealized_pnl := total_unrealized_pnl }
      positions := positions
      orders := orders
      risks :=
        { highest_risk_position := scan.1
          high_leverage_count := high_leverage_positions.length
          close_liquidation_count := close_liquidation_positions.length
          total_risk_score := scan.2 } }

/-- analyze_positions of analyzer.py: the main entry point.  An absent or
empty raw order list yields an empty analyzed order list (Python's
`if raw_orders:` guard is falsy on both `None` and `[]`, and
analyze_orders maps `[]` to `[]` anyway). -/
def analyze_positions (raw_positions : List RawPosition)
    (raw_orders : List RawOrder) : PortfolioAnalysis :=
  let analyzed_positions := raw_positions.map analyze_position
  let analyzed_orders := analyze_orders raw_orders
  analyze_portfolio analyzed_positions analyzed_orders

/-- Result record of the suggestion generator (ai_analysis.py): three
categorized suggestion lists. -/
structure Suggestions where
  urgent : List String
  recommended : List String
  optional : List String
  deriving Repr, DecidableEq

/-- First maximal element by second component, scanning left to right and
replacing only on strictly greater: models Python `max(items, key=...)`,
which returns the first maximal element. -/
def maxBySnd (x : String × ℚ) : List (String × ℚ) → String × ℚ
  | [] => x
  | y :: ys => maxBySnd (if y.2 > x.2 then y else x) ys

/-- _fallback_analysis of ai_analysis.py.  Numeric string interpolation
(`:.2f` and similar) is elided from the message texts; the rule structure,
the per-rule guards, the `[:2]` slice on high-leverage positions and the
final `[:4]` caps follow the source. -/
def fallback_analysis (analysis_data : PortfolioAnalysis) : Suggestions :=
  let portfolio := analysis_data.portfolio
  let positions := analysis_data.positions
  let risks := analysis_data.risks
  let close_liq_positions := positions.filter
    fun p => p.liquidation_distance_pct < 10
  let urgent := close_liq_positions.map fun pos =>
    "Add collateral or reduce " ++ pos.symbol ++ " " ++ upperStr pos.side
      ++ " position (close to liquidation)"
  let high_lev_positions := positions.filter fun p => p.leverage > 10
  let urgent := urgent ++ (high_lev_positions.take 2).map fun pos =>
    "Reduce leverage on " ++ pos.symbol
  let recommended : List String :=
    match portfolio.clusters with
    | [] => []
    | c :: cs =>
        let max_cluster := maxBySnd c cs
        if max_cluster.2 > 40 then
          ["Diversify away from " ++ max_cluster.1 ++ " cluster"]
        else []
  let profitable_positions := positions.filter
    fun p => p.pnl_status == "profit" && p.unrealized_pnl > 100
  let recommended := recommended ++
    (if profitable_positions.isEmpty then []
     else ["Consider taking partial profits on profitable position(s)"])
  let recommended := recommended ++
    (if portfolio.bias == "long" || portfolio.bias == "short" then
      ["Portfolio is heavily " ++ upperStr portfolio.bias
        ++ " biased - consider hedges"]
     else [])
  let optional : List String :=
    if positions.any
        (fun p => p.leverage_risk == "medium" || p.leverage_risk == "high")
    then ["Set tighter stop losses on high-leverage positions"]
    else []
  let losing_positions := positions.filter
    fun p => p.pnl_status == "loss" && p.unrealized_pnl < -100
  let optional := optional ++
    (if losing_positions.isEmpty then []
     else ["Review losing position(s) for potential exit"])
  let optional := optional ++
    (if risks.high_leverage_count > 3 then
      ["Consider reducing overall portfolio leverage"]
     else [])
  let optional :=
    if urgent.isEmpty && recommended.isEmpty && optional.isEmpty then
      ["Portfolio looks relatively balanced - continue monitoring"]
    else optional
  { urgent := urgent.take 4
    recommended := recommended.take 4
    optional := optional.take 4 }

/-- Reply handling of _openai_analysis (ai_analysis.py): the HTTP call
and JSON decoding are abstracted, `parsed` standing for the result of
`json.loads` on the markdown-stripped reply content (`none` on a
JSONDecodeError).  A successfully parsed suggestions object is returned
unchanged - the source applies no truncation on this path - and a parse
failure falls back to the rule-based analysis. -/
def openaiHandleReply (analysis_data : PortfolioAnalysis)
    (parsed : Option Suggestions) : Suggestions :=
  match parsed with
  | some suggestions => suggestions
  | none => fallback_analysis analysis_data

/-- Reference selection for the highest-risk scan, written from the
amended C1: the winner is the first position with positive liquidation
distance and strictly positive risk score attaining the maximum score
(the head beats the best of the tail exactly when its score is at least
as large), and (none, 0) results when no position has both positive
liquidation distance and positive score. -/
def bestRiskSpec : List PositionAnalysis → Option PositionAnalysis × ℚ
  | [] => (none, 0)
  | p :: ps =>
      let r := bestRiskSpec ps
      if p.liquidation_distance_pct > 0 ∧ riskScore p > 0 ∧ riskScore p ≥ r.2
      then (some p, riskScore p) else r

/-- Concrete analyzed long position with the given exposure, for use in
witnesses. -/
def mkLong (e : ℚ) : PositionAnalysis :=
  { symbol := "BTCUSDT", side := "buy", size := 1, entry_price := e,
    mark_price := e, liq_price := 0, leverage := 1, unrealized_pnl := 0,
    exposure_usdt := e, liquidation_distance_pct := 100,
    pnl_status := "loss", leverage_risk := "safe", cluster := "BTC" }

/-- Concrete analyzed short position with the given exposure, for use in
witnesses. -/
def mkShort (e : ℚ) : PositionAnalysis :=
  { symbol := "ETHUSDT", side := "sell", size := 1, entry_price := e,
    mark_price := e, liq_price := 0, leverage := 1, unrealized_pnl := 0,
    exposure_usdt := e, liquidation_distance_pct := 100,
    pnl_status := "loss", leverage_risk := "safe", cluster := "ETH" }

/-- Analyzed position with positive liquidation distance (100, since no
liquidation price is set) but zero leverage, hence risk score 0. -/
def zeroLeveragePos : PositionAnalysis :=
  analyze_position
    { symbol := some "BTCUSDT", side := some "Buy", markPrice := some 100,
      leverage := some 0 }

/-! ## Theorems -/

/-- C7: calculate_leverage_risk returns `safe` for every leverage
strictly below 5, `medium` for every leverage from 5 up to and including
10, and `high` for every leverage strictly above 10. -/
theorem leverage_risk_buckets (l : ℚ) :
    (l < 5 → calculate_leverage_risk l = "safe") ∧
    (5 ≤ l ∧ l ≤ 10 → calculate_leverage_risk l = "medium") ∧
    (10 < l → calculate_leverage_risk l = "high") := by
  refine ⟨fun h => ?_, fun h => ?_, fun h => ?_⟩
  · simp [calculate_leverage_risk, h]
  · have h1 : ¬ l < 5 := not_lt.mpr h.1
    simp [calculate_leverage_risk, h1, h.2]
  · have h1 : ¬ l < 5 := by linarith
    have h2 : ¬ l ≤ 10 := not_le.mpr h
    simp [calculate_leverage_risk, h1, h2]

/-- Witness for C7 at the boundary leverages 4.99, 5, 10, 10.01. -/
theorem leverage_risk_buckets_witness :
    calculate_leverage_risk (499 / 100) = "safe" ∧
    calculate_leverage_risk 5 = "medium" ∧
    calculate_leverage_risk 10 = "medium" ∧
    calculate_leverage_risk (1001 / 100) = "high" :=
  ⟨(leverage_risk_buckets (499 / 100)).1 (by norm_num),
   (leverage_risk_buckets 5).2.1 (by norm_num),
   (leverage_risk_buckets 10).2.1 (by norm_num),
   (leverage_risk_buckets (1001 / 100)).2.2 (by norm_num)⟩

/-- C3: a raw position whose liqPrice field is absent or 0 gets
liquidation_distance_pct = 100. -/
theorem liq_distance_no_liq_price (p : RawPosition)
    (h : p.liqPrice = none ∨ p.liqPrice = some 0) :
    (analyze_position p).liquidation_distance_pct = 100 := by
  rcases h with h | h <;> simp [analyze_position, h]

/-- Witness for C3 on the all-absent raw position. -/
theorem liq_distance_no_liq_price_witness :
    (analyze_position { }).liquidation_distance_pct = 100 :=
  liq_distance_no_liq_price { } (Or.inl rfl)

/-- C2 counterexample: a raw position with liqPrice 5 set but markPrice
absent (parsed as 0) gets liquidation_distance_pct 100 from the code,
while the claimed formula |mark − liq| / mark × 100 does not give 100
there (in ℚ it yields 0; in Python it is a division by zero). -/
theorem liq_distance_formula_counterexample :
    (RawPosition.liqPrice { liqPrice := some 5 }).getD 0 > 0 ∧
    (analyze_position { liqPrice := some 5 }).liquidation_distance_pct
      = 100 ∧
    |(analyze_position { liqPrice := some 5 }).mark_price -
        (analyze_position { liqPrice := some 5 }).liq_price| /
      (analyze_position { liqPrice := some 5 }).mark_price * 100 ≠ 100 := by
  refine ⟨by norm_num, by simp [analyze_position], by simp [analyze_position]⟩

/-- C2 amended: when both the parsed liquidation price and the parsed
mark price are positive, liquidation_distance_pct is
|mark − liq| / mark × 100. -/
theorem liq_distance_formula (p : RawPosition)
    (hl : 0 < p.liqPrice.getD 0) (hm : 0 < p.markPrice.getD 0) :
    (analyze_position p).liquidation_distance_pct =
      |p.markPrice.getD 0 - p.liqPrice.getD 0| / p.markPrice.getD 0 * 100 := by
  simp [analyze_position, hl, hm]

/-- Witness for the amended C2: mark 100, liquidation 80 gives a 20%
liquidation distance. -/
theorem liq_distance_formula_witness :
    (analyze_position { markPrice := some 100, liqPrice := some 80
      }).liquidation_distance_pct = 20 := by
  rw [liq_distance_formula _ (by norm_num) (by norm_num)]
  norm_num

/-- C4 counterexample: on the empty raw position dict the leverage field
defaults to 1, not 0 as claimed. -/
theorem numeric_defaults_counterexample :
    (analyze_position { }).leverage = 1 ∧ (analyze_position { }).leverage ≠ 0 := by
  refine ⟨rfl, by norm_num [analyze_position]⟩

/-- C4 amended: analyze_position is total on arbitrary raw records
(malformed input raises nothing), missing size, avgPrice, markPrice,
liqPrice and unrealisedPnl parse as 0, and missing leverage parses
as 1. -/
theorem numeric_defaults (p : RawPosition) :
    ((p.size = none → (analyze_position p).size = 0) ∧
     (p.avgPrice = none → (analyze_position p).entry_price = 0) ∧
     (p.markPrice = none → (analyze_position p).mark_price = 0) ∧
     (p.liqPrice = none → (analyze_position p).liq_price = 0) ∧
     (p.unrealisedPnl = none → (analyze_position p).unrealized_pnl = 0)) ∧
    (p.leverage = none → (analyze_position p).leverage = 1) := by
  refine ⟨⟨?_, ?_, ?_, ?_, ?_⟩, ?_⟩ <;> intro h <;> simp [analyze_position, h]

/-- Witness for the amended C4 on the empty raw position dict. -/
theorem numeric_defaults_witness :
    (analyze_position { }).size = 0 ∧ (analyze_position { }).leverage = 1 :=
  ⟨(numeric_defaults { }).1.1 rfl, (numeric_defaults { }).2 rfl⟩

/-- C10: a raw position whose unrealized PnL parses to 0 (including the
absent-field default) gets pnl_status `loss`; pnl_status is `profit`
exactly when the parsed unrealized PnL is strictly positive. -/
theorem pnl_status_zero_is_loss (p : RawPosition) :
    (p.unrealisedPnl.getD 0 = 0 → (analyze_position p).pnl_status = "loss") ∧
    ((analyze_position p).pnl_status = "profit" ↔ 0 < p.unrealisedPnl.getD 0) := by
  have hdef : (analyze_position p).pnl_status =
      if p.unrealisedPnl.getD 0 > 0 then "profit" else "loss" := rfl
  constructor
  · intro h
    rw [hdef, if_neg]
    rw [h]
    exact lt_irrefl 0
  · rw [hdef]
    by_cases hu : p.unrealisedPnl.getD 0 > 0
    · simp [hu]
    · simp [hu]

/-- Witness for C10 at an explicit zero unrealized PnL. -/
theorem pnl_status_zero_is_loss_witness :
    (analyze_position { unrealisedPnl := some 0 }).pnl_status = "loss" :=
  (pnl_status_zero_is_loss { unrealisedPnl := some 0 }).1 rfl

/-- The hand-written first-match scan agrees with List.find? on the
cluster table: the result is the first table entry one of whose keywords
occurs in the scanned character list, defaulting to OTHER. -/
theorem categorizeScan_eq_find (table : List (String × List String))
    (u : List Char) :
    categorizeScan table u =
      (((table.find? fun ck => ck.2.any fun kw => containsSub u kw.toList).map
        Prod.fst).getD "OTHER") := by
  induction table with
  | nil => rfl
  | cons c rest ih =>
      obtain ⟨cluster, keywords⟩ := c
      cases h : (keywords.any fun kw => containsSub u kw.toList) with
      | true => simp only [categorizeScan, List.find?_cons, h, if_true,
          Option.map_some', Option.getD_some]
      | false =>
          simp only [categorizeScan, List.find?_cons, h, if_false,
            Bool.false_eq_true]
          exact ih

/-- C5: categorize_symbol depends only on the upper-cased symbol (hence
is case-insensitive), returns the first cluster in the fixed table order
BTC, ETH, L2, MEME, AI one of whose keywords occurs as a substring of the
upper-cased symbol, defaults to OTHER, and maps ARBUSDT (in any casing)
to L2. -/
theorem categorize_symbol_spec :
    (∀ s t : String, strUpper s = strUpper t →
      categorize_symbol s = categorize_symbol t) ∧
    (∀ s : String,
      categorize_symbol s =
        (((SYMBOL_CLUSTERS.find? fun ck =>
            ck.2.any fun kw => containsSub (strUpper s) kw.toList).map
          Prod.fst).getD "OTHER")) ∧
    categorize_symbol "ARBUSDT" = "L2" ∧
    categorize_symbol "arbUsdt" = "L2" := by
  refine ⟨fun s t h => ?_, fun s => categorizeScan_eq_find _ _, by decide, by decide⟩
  unfold categorize_symbol
  rw [h]

/-- Witness for C5: case-insensitivity applied at a concrete pair of
casings of the same symbol. -/
theorem categorize_symbol_spec_witness :
    categorize_symbol "btcusdt" = categorize_symbol "BTCUSDT" ∧
    categorize_symbol "ARBUSDT" = "L2" :=
  ⟨categorize_symbol_spec.1 "btcusdt" "BTCUSDT" (by decide),
   categorize_symbol_spec.2.2.1⟩

/-- C9: on empty position and order lists the analyzer returns the
zeroed portfolio record: all exposures 0, bias neutral, empty cluster
map, zero counts, zero total unrealized PnL, no highest-risk position and
zero risk counts and score. -/
theorem empty_input_zeroed :
    (analyze_positions [] []).portfolio.total_long_exposure = 0 ∧
    (analyze_positions [] []).portfolio.total_short_exposure = 0 ∧
    (analyze_positions [] []).portfolio.net_exposure = 0 ∧
    (analyze_positions [] []).portfolio.bias = "neutral" ∧
    (analyze_positions [] []).portfolio.clusters = [] ∧
    (analyze_positions [] []).portfolio.total_positions = 0 ∧
    (analyze_positions [] []).portfolio.total_orders = 0 ∧
    (analyze_positions [] []).portfolio.total_unrealized_pnl = 0 ∧
    (analyze_positions [] []).positions = [] ∧
    (analyze_positions [] []).orders = [] ∧
    (analyze_positions [] []).risks.highest_risk_position = none ∧
    (analyze_positions [] []).risks.high_leverage_count = 0 ∧
    (analyze_positions [] []).risks.close_liquidation_count = 0 ∧
    (analyze_positions [] []).risks.total_risk_score = 0 := by
  refine ⟨rfl, rfl, rfl, rfl, rfl, rfl, rfl, rfl, rfl, rfl, rfl, rfl, rfl, rfl⟩

/-- C8 counterexample: on the AI path the parsed reply is returned
unchanged, so a reply whose urgent list has five entries makes the
suggestion generator return five urgent suggestions - the 4-entry cap
holds only on the rule-based path. -/
theorem suggestion_cap_counterexample :
    (openaiHandleReply (analyze_portfolio [] [])
      (some { urgent := ["a", "b", "c", "d", "e"], recommended := [],
              optional := [] })).urgent.length = 5 := rfl

/-- C8 amended: the rule-based fallback generator caps each of its three
suggestion lists at 4 entries, for every analysis input; the OpenAI path
returns the parsed model reply uncapped. -/
theorem fallback_suggestions_capped (d : PortfolioAnalysis) :
    (fallback_analysis d).urgent.length ≤ 4 ∧
    (fallback_analysis d).recommended.length ≤ 4 ∧
    (fallback_analysis d).optional.length ≤ 4 := by
  refine ⟨?_, ?_, ?_⟩ <;>
    · show (List.take 4 _).length ≤ 4
      rw [List.length_take]
      exact Nat.min_le_left 4 _

/-- Unfolding equation for riskStep. -/
theorem riskStep_eq (acc : Option PositionAnalysis × ℚ)
    (pos : PositionAnalysis) :
    riskStep acc pos =
      if pos.liquidation_distance_pct > 0 then
        (if riskScore pos > acc.2 then (some pos, riskScore pos) else acc)
      else acc := rfl

/-- Unfolding equation for bestRiskSpec on a cons cell. -/
theorem bestRiskSpec_cons (p : PositionAnalysis)
    (ps : List PositionAnalysis) :
    bestRiskSpec (p :: ps) =
      if p.liquidation_distance_pct > 0 ∧ riskScore p > 0 ∧
          riskScore p ≥ (bestRiskSpec ps).2
      then (some p, riskScore p) else bestRiskSpec ps := rfl

/-- The reference best score is never negative. -/
theorem bestRiskSpec_nonneg (ps : List PositionAnalysis) :
    0 ≤ (bestRiskSpec ps).2 := by
  induction ps with
  | nil => exact le_refl 0
  | cons p ps ih =>
      rw [bestRiskSpec_cons]
      split
      · next h => exact le_of_lt h.2.1
      · exact ih

/-- A nonpositive reference best score only arises as the degenerate
(none, 0) result. -/
theorem bestRiskSpec_of_nonpos (ps : List PositionAnalysis)
    (h : (bestRiskSpec ps).2 ≤ 0) : bestRiskSpec ps = (none, 0) := by
  induction ps with
  | nil => rfl
  | cons p ps ih =>
      rw [bestRiskSpec_cons] at h ⊢
      split at h
      · next hc => exact absurd h (not_le.mpr hc.2.1)
      · next hc =>
          rw [if_neg hc]
          exact ih h

/-- The left fold of analyze_portfolio's risk scan, started at any
accumulator with a nonnegative score, equals the reference selection when
the reference score beats the accumulator and the accumulator
otherwise. -/
theorem riskFold_eq_bestRiskSpec (ps : List PositionAnalysis)
    (a : Option PositionAnalysis) (s : ℚ) (hs : 0 ≤ s) :
    ps.foldl riskStep (a, s) =
      (if s < (bestRiskSpec ps).2 then bestRiskSpec ps else (a, s)) := by
  induction ps generalizing a s with
  | nil =>
      rw [List.foldl_nil, if_neg]
      show ¬ s < (0 : ℚ)
      exact not_lt.mpr hs
  | cons p ps ih =>
      have hb : 0 ≤ (bestRiskSpec ps).2 := bestRiskSpec_nonneg ps
      rw [List.foldl_cons, riskStep_eq]
      by_cases hq : p.liquidation_distance_pct > 0
      · rw [if_pos hq]
        by_cases hss : riskScore p > s
        · rw [if_pos hss]
          have hσ0 : riskScore p > 0 := lt_of_le_of_lt hs hss
          rw [ih _ _ (le_of_lt hσ0)]
          by_cases hsb : riskScore p ≥ (bestRiskSpec ps).2
          · have e1 : bestRiskSpec (p :: ps) = (some p, riskScore p) := by
              rw [bestRiskSpec_cons,
                if_pos (And.intro hq (And.intro hσ0 hsb))]
            rw [if_neg (not_lt.mpr hsb), e1,
              if_pos (show s < (some p, riskScore p).2 from hss)]
          · push_neg at hsb
            have e1 : bestRiskSpec (p :: ps) = bestRiskSpec ps := by
              rw [bestRiskSpec_cons, if_neg]
              exact fun hc => absurd hc.2.2 (not_le.mpr hsb)
            rw [if_pos hsb, e1, if_pos (lt_trans hss hsb)]
        · rw [if_neg hss, ih _ _ hs]
          push_neg at hss
          by_cases hc : riskScore p ≥ (bestRiskSpec ps).2 ∧ riskScore p > 0
          · have e1 : bestRiskSpec (p :: ps) = (some p, riskScore p) := by
              rw [bestRiskSpec_cons,
                if_pos (And.intro hq (And.intro hc.2 hc.1))]
            have h1 : ¬ s < (bestRiskSpec ps).2 :=
              not_lt.mpr (le_trans hc.1 hss)
            rw [if_neg h1, e1,
              if_neg (show ¬ s < (some p, riskScore p).2 from not_lt.mpr hss)]
          · have e1 : bestRiskSpec (p :: ps) = bestRiskSpec ps := by
              rw [bestRiskSpec_cons, if_neg]
              exact fun hcc => hc (And.intro hcc.2.2 hcc.2.1)
            rw [e1]
      · rw [if_neg hq, ih _ _ hs]
        have e1 : bestRiskSpec (p :: ps) = bestRiskSpec ps := by
          rw [bestRiskSpec_cons, if_neg]
          exact fun hc => absurd hc.1 hq
        rw [e1]

/-- C1 amended: analyze_portfolio's highest_risk_position and
total_risk_score are exactly the reference selection bestRiskSpec: the
first position with positive liquidation distance and strictly positive
risk score 100 / liquidation_distance_pct × leverage attaining the
maximum such score, together with that score, and (none, 0) when no
position has a strictly positive score (a qualifying position with score
0, e.g. zero leverage, is never selected). -/
theorem highest_risk_selection (positions : List PositionAnalysis)
    (orders : List OrderAnalysis) :
    (analyze_portfolio positions orders).risks.highest_risk_position =
      (bestRiskSpec positions).1 ∧
    (analyze_portfolio positions orders).risks.total_risk_score =
      (bestRiskSpec positions).2 := by
  by_cases hemp : positions.isEmpty ∧ orders.isEmpty
  · have h1 : positions = [] := by
      cases positions with
      | nil => rfl
      | cons x xs => exact absurd hemp.1 (by simp)
    subst h1
    constructor <;> simp [analyze_portfolio, hemp.2, bestRiskSpec]
  · have h1 : (analyze_portfolio positions orders).risks.highest_risk_position
        = (riskScan positions).1 := by
      unfold analyze_portfolio
      rw [if_neg hemp]
    have h2 : (analyze_portfolio positions orders).risks.total_risk_score
        = (riskScan positions).2 := by
      unfold analyze_portfolio
      rw [if_neg hemp]
    have key : riskScan positions =
        (if (0 : ℚ) < (bestRiskSpec positions).2 then bestRiskSpec positions
         else (none, 0)) :=
      riskFold_eq_bestRiskSpec positions none 0 le_rfl
    by_cases hpos : (0 : ℚ) < (bestRiskSpec positions).2
    · rw [h1, h2, key, if_pos hpos]
      exact ⟨rfl, rfl⟩
    · rw [h1, h2, key, if_neg hpos,
        bestRiskSpec_of_nonpos positions (not_lt.mp hpos)]
      exact ⟨rfl, rfl⟩

/-- C1 counterexample: a position with positive liquidation distance
(hence qualifying per the claim) but zero leverage has risk score 0; the
claim requires it to be selected as the (sole) maximizer, yet the code
leaves highest_risk_position as None because it only replaces the
best-so-far on a strictly positive score. -/
theorem highest_risk_counterexample :
    zeroLeveragePos.liquidation_distance_pct > 0 ∧
    (analyze_portfolio [zeroLeveragePos] []).risks.highest_risk_position
      = none ∧
    (analyze_portfolio [zeroLeveragePos] []).risks.total_risk_score = 0 := by
  have h100 : zeroLeveragePos.liquidation_distance_pct = 100 := by
    simp [zeroLeveragePos, analyze_position]
  have hlev : zeroLeveragePos.leverage = 0 := rfl
  have hsc : riskScore zeroLeveragePos = 0 := by
    rw [riskScore, h100, hlev, mul_zero]
  have hscan : riskScan [zeroLeveragePos] = (none, 0) := by
    show riskStep (none, 0) zeroLeveragePos = (none, 0)
    rw [riskStep_eq]
    rw [if_pos (show zeroLeveragePos.liquidation_distance_pct > 0 by
      rw [h100]; norm_num)]
    rw [if_neg (show ¬ riskScore zeroLeveragePos > ((none : Option
        PositionAnalysis), (0 : ℚ)).2 by rw [hsc]; exact lt_irrefl 0)]
  refine ⟨by rw [h100]; norm_num, ?_, ?_⟩
  · have h1 : (analyze_portfolio [zeroLeveragePos] []).risks.highest_risk_position = (riskScan [zeroLeveragePos]).1 := by
      unfold analyze_portfolio
      rw [if_neg (by simp)]
    rw [h1, hscan]
  · have h2 : (analyze_portfolio [zeroLeveragePos] []).risks.total_risk_score = (riskScan [zeroLeveragePos]).2 := by
      unfold analyze_portfolio
      rw [if_neg (by simp)]
    rw [h2, hscan]

/-- The bias field of analyze_portfolio as a closed formula over the
side-wise exposure totals. -/
theorem analyze_portfolio_bias (positions : List PositionAnalysis)
    (orders : List OrderAnalysis) :
    (analyze_portfolio positions orders).portfolio.bias =
      (if 0 < totalLongExposure positions + totalShortExposure positions then
        (if totalLongExposure positions /
            (totalLongExposure positions + totalShortExposure positions) >
            (6 : ℚ) / 10 then "long"
         else if totalLongExposure positions /
            (totalLongExposure positions + totalShortExposure positions) <
            (4 : ℚ) / 10 then "short"
         else "neutral")
       else "neutral") := by
  by_cases hemp : positions.isEmpty ∧ orders.isEmpty
  · have h1 : positions = [] := by
      cases positions with
      | nil => rfl
      | cons x xs => exact absurd hemp.1 (by simp)
    subst h1
    have hz : totalLongExposure [] + totalShortExposure [] = 0 := by
      simp [totalLongExposure, totalShortExposure]
    rw [hz, if_neg (lt_irrefl 0)]
    unfold analyze_portfolio
    rw [if_pos hemp]
  · unfold analyze_portfolio
    rw [if_neg hemp]

/-- C6: with positive total exposure the bias is long when the long
fraction strictly exceeds 0.6, short when it is strictly below 0.4, and
neutral in between (boundaries included); with zero total exposure the
bias is neutral. -/
theorem portfolio_bias_thresholds (positions : List PositionAnalysis)
    (orders : List OrderAnalysis) :
    (totalLongExposure positions + totalShortExposure positions = 0 →
      (analyze_portfolio positions orders).portfolio.bias = "neutral") ∧
    (0 < totalLongExposure positions + totalShortExposure positions →
      ((totalLongExposure positions /
          (totalLongExposure positions + totalShortExposure positions) >
          (6 : ℚ) / 10 →
        (analyze_portfolio positions orders).portfolio.bias = "long") ∧
       (totalLongExposure positions /
          (totalLongExposure positions + totalShortExposure positions) <
          (4 : ℚ) / 10 →
        (analyze_portfolio positions orders).portfolio.bias = "short") ∧
       ((4 : ℚ) / 10 ≤ totalLongExposure positions /
          (totalLongExposure positions + totalShortExposure positions) →
        totalLongExposure positions /
          (totalLongExposure positions + totalShortExposure positions) ≤
          (6 : ℚ) / 10 →
        (analyze_portfolio positions orders).portfolio.bias = "neutral"))) := by
  constructor
  · intro h0
    rw [analyze_portfolio_bias, h0, if_neg (lt_irrefl 0)]
  · intro hT
    refine ⟨fun h => ?_, fun h => ?_, fun h1 h2 => ?_⟩
    · rw [analyze_portfolio_bias, if_pos hT, if_pos h]
    · rw [analyze_portfolio_bias, if_pos hT, if_neg (by linarith), if_pos h]
    · rw [analyze_portfolio_bias, if_pos hT,
        if_neg (not_lt.mpr h2), if_neg (not_lt.mpr h1)]

/-- Witness for C6 at long fractions 0.61, 0.40 and 0.39 of a total
exposure of 100. -/
theorem portfolio_bias_thresholds_witness :
    (analyze_portfolio [mkLong 61, mkShort 39] []).portfolio.bias
      = "long" ∧
    (analyze_portfolio [mkLong 40, mkShort 60] []).portfolio.bias
      = "neutral" ∧
    (analyze_portfolio [mkLong 39, mkShort 61] []).portfolio.bias
      = "short" := by
  have e1 : ∀ a b : ℚ, totalLongExposure [mkLong a, mkShort b] = a := by
    intro a b
    simp [totalLongExposure, mkLong, mkShort]
  have e2 : ∀ a b : ℚ, totalShortExposure [mkLong a, mkShort b] = b := by
    intro a b
    simp [totalShortExposure, mkLong, mkShort]
  refine ⟨?_, ?_, ?_⟩
  · exact ((portfolio_bias_thresholds [mkLong 61, mkShort 39] []).2
      (by rw [e1, e2]; norm_num)).1 (by rw [e1, e2]; norm_num)
  · exact (((portfolio_bias_thresholds [mkLong 40, mkShort 60] []).2
      (by rw [e1, e2]; norm_num)).2.2 (by rw [e1, e2]; norm_num))
      (by rw [e1, e2]; norm_num)
  · exact ((portfolio_bias_thresholds [mkLong 39, mkShort 61] []).2
      (by rw [e1, e2]; norm_num)).2.1 (by rw [e1, e2]; norm_num)

end BBPos
